import Mathlib

/-!
Verification of the behavioral logic of `src/AmanAgrawalProfile.jsx`
(a single-page profile site): the theme-preference initializer and
controller, the two modal slots with their shared scroll lock, the
profile-image error fallback, and the content-list renderers.

Each definition is a shallow embedding of the corresponding JavaScript,
with the source location noted in its doc comment.
-/

namespace Site

/-- JavaScript truthiness of a nullable string value: `null` and the empty
string are falsy, every other string is truthy. Used to embed
`if (savedTheme)` and `item.details && ...`. -/
def jsTruthyStr : Option String → Bool
  | none => false
  | some s => s != ""

/-- The browser facilities the `darkMode` useState initializer touches when
`window` is defined: the result of `localStorage.getItem('theme')` and the
result of `window.matchMedia('(prefers-color-scheme: dark)').matches`. -/
structure BrowserEnv where
  savedTheme : Option String
  prefersDark : Bool

/-- Embedding of the `darkMode` useState initializer (source lines 168-177):
if `window` is undefined the initializer returns `false` (light); otherwise
if `localStorage.getItem('theme')` is truthy it returns
`savedTheme === 'dark'`; otherwise it returns the ambient
`prefers-color-scheme: dark` match. -/
def darkModeInit : Option BrowserEnv → Bool
  | some env =>
      if jsTruthyStr env.savedTheme then env.savedTheme == some "dark"
      else env.prefersDark
  | none => false

/-- Result of an attempted `localStorage.getItem` call: either a value
(possibly absent), or a thrown exception (storage access denied). -/
inductive StorageResult where
  | ok : Option String → StorageResult
  | err : StorageResult

/-- Browser facilities with a fallible persisted-value read. -/
structure BrowserEnvF where
  getTheme : StorageResult
  prefersDark : Bool

/-- Embedding of the same initializer with the fallibility of
`localStorage.getItem` made explicit. The source (lines 168-177) contains
no try/catch around the read, so a thrown storage exception propagates out
of the initializer instead of falling back to the ambient signal. -/
def darkModeInitF : Option BrowserEnvF → Except Unit Bool
  | some env =>
      match env.getTheme with
      | .err => .error ()
      | .ok saved =>
          .ok (if jsTruthyStr saved then saved == some "dark"
               else env.prefersDark)
  | none => .ok false

/-- Embedding of `toggleDarkMode` (source lines 196-198): the updater
function `prevMode => !prevMode` passed to `setDarkMode`. -/
def toggleDarkMode (prevMode : Bool) : Bool := !prevMode

/-- The observable document state touched by the `darkMode` useEffect:
the class list of `document.documentElement` and the persisted
`localStorage` entry under the key `theme`. -/
structure DocumentState where
  rootClasses : List String
  storedTheme : Option String
deriving DecidableEq

/-- `DOMTokenList.add`: appends the token unless it is already present. -/
def classListAdd (cs : List String) (c : String) : List String :=
  if c ∈ cs then cs else cs ++ [c]

/-- `DOMTokenList.remove`: removes every occurrence of the token. -/
def classListRemove (cs : List String) (c : String) : List String :=
  cs.filter (fun x => x != c)

/-- Embedding of the `darkMode` useEffect (source lines 185-193): when dark,
add the `dark` class and persist `'dark'`; when light, remove the class and
persist `'light'`. -/
def applyTheme (darkMode : Bool) (st : DocumentState) : DocumentState :=
  if darkMode then
    ⟨classListAdd st.rootClasses "dark", some "dark"⟩
  else
    ⟨classListRemove st.rootClasses "dark", some "light"⟩

/-- Title passed to `setModalContent` by `openAboutModal` (source line 203). -/
def aboutFullTitle : String := "My Full Journey: Passion, Purpose, and Progress"

/-- Description passed to `setModalContent` by `openAboutModal` (source
line 204). -/
def aboutFullDesc : String := "My professional journey is driven by a deep-seated passion for data and its transformative power. As an MBA graduate from IIM Sambalpur, I've cultivated a robust foundation in leveraging analytical insights to solve complex business challenges. My career has been a continuous exploration of how data can optimize operations, enhance decision-making, and drive digital innovation. From my early days at Infosys, where I honed my skills in SAP BW/HANA support and Azure Data Factory, to my current pivotal role as Technical Assistant at Tata Power DDL, I've consistently sought opportunities to apply my expertise to create tangible, impactful results. I am a Six Sigma certified professional, committed to continuous improvement and delivering excellence in every endeavor. My approach combines rigorous analytical methods with a strategic business mindset, enabling me to translate complex data into actionable insights that drive growth and efficiency. I thrive in dynamic environments where I can continuously learn and contribute to meaningful projects."

/-- The shared `modalContent` state (source line 182): a title/description
pair fed to whichever modal is open. -/
structure ModalContent where
  title : String
  desc : String
deriving DecidableEq

/-- The modal-related state of `AmanAgrawalProfile` plus the one piece of
document state the modals touch: `isAboutModalOpen`, `isDetailModalOpen`,
the shared `modalContent` (source lines 180-182), and
`document.body.style.overflow`, written by each `Modal` instance's
scroll-lock useEffect (source lines 86-95). -/
structure AppState where
  isAboutModalOpen : Bool
  isDetailModalOpen : Bool
  modalContent : ModalContent
  bodyOverflow : String
deriving DecidableEq

/-- Net result of one run of a `Modal`'s scroll-lock effect (source lines
86-95): the cleanup writes `'unset'`, then the effect body writes `'hidden'`
when open and `'unset'` when closed, so the net write is determined by the
new `isOpen` value. -/
def effectNet (isOpen : Bool) : String := if isOpen then "hidden" else "unset"

/-- One React commit of the two `Modal` scroll-lock effects. The about modal
is mounted first (source line 866), the detail modal second (source line
869); each effect has dependency array `[isOpen]`, so it re-runs exactly
when its own `isOpen` prop changed, and the effects run in mount order. -/
def runEffects (oldA oldD newA newD : Bool) (overflow : String) : String :=
  let afterAbout := if oldA != newA then effectNet newA else overflow
  if oldD != newD then effectNet newD else afterAbout

/-- Applies a handler's state update (new open flags and content) and then
the resulting commit of both modals' scroll-lock effects. -/
def commitModal (s : AppState) (newA newD : Bool) (c : ModalContent) : AppState :=
  ⟨newA, newD, c,
   runEffects s.isAboutModalOpen s.isDetailModalOpen newA newD s.bodyOverflow⟩

/-- Embedding of `openAboutModal` (source lines 201-207): sets the shared
content to the fixed about text and opens the about slot. The detail slot is
left untouched. -/
def openAboutModal (s : AppState) : AppState :=
  commitModal s true s.isDetailModalOpen ⟨aboutFullTitle, aboutFullDesc⟩

/-- Embedding of `closeAboutModal` (source line 210): only clears the about
open flag; the shared `modalContent` is not cleared. -/
def closeAboutModal (s : AppState) : AppState :=
  commitModal s false s.isDetailModalOpen s.modalContent

/-- Embedding of `openDetailModal` (source lines 217-220): sets the shared
content to the given title/description and opens the detail slot. The about
slot is left untouched. -/
def openDetailModal (title desc : String) (s : AppState) : AppState :=
  commitModal s s.isAboutModalOpen true ⟨title, desc⟩

/-- Embedding of `closeDetailModal` (source lines 223-226): clears the
detail open flag and resets the shared content to empty strings. -/
def closeDetailModal (s : AppState) : AppState :=
  commitModal s s.isAboutModalOpen false ⟨"", ""⟩

/-- A user-triggered modal event: the four handlers above. -/
inductive Event where
  | openAbout
  | closeAbout
  | openDetail (title desc : String)
  | closeDetail
deriving DecidableEq

/-- Dispatch of one event to its handler. -/
def step (s : AppState) : Event → AppState
  | .openAbout => openAboutModal s
  | .closeAbout => closeAboutModal s
  | .openDetail t d => openDetailModal t d s
  | .closeDetail => closeDetailModal s

/-- State after the initial mount: both slots closed, empty content, and
both scroll-lock effects have run their first time with `isOpen = false`,
leaving `document.body.style.overflow` at `'unset'`. -/
def initState : AppState := ⟨false, false, ⟨"", ""⟩, "unset"⟩

/-- Runs a sequence of modal events from a state. -/
def run (s : AppState) (es : List Event) : AppState := es.foldl step s

/-- Whether an event avoids opening one slot while the other is open. -/
def eventOk (s : AppState) : Event → Bool
  | .openAbout => !s.isDetailModalOpen
  | .openDetail _ _ => !s.isAboutModalOpen
  | _ => true

/-- The profile image URL (source line 229). -/
def profileImage : String := "https://media.licdn.com/dms/image/v2/D5603AQEZ1ZxlfhSHzQ/profile-displayphoto-shrink_800_800/B56ZOMbB4IGgAc-/0/1733227717110?e=1758153600&v=beta&t=AMILKILzLPvd7DLWEvFUMdL48v8gnBhplOMx5TRAxUU"

/-- The fallback placeholder URL set by the hero image's error handler
(source line 389). -/
def placeholderSrc : String := "https://placehold.co/144x144/cccccc/ffffff?text=Profile"

/-- The state of the hero `img` element the error handler touches: its
`src` and whether its `onerror` handler is still attached. -/
structure ImgState where
  src : String
  onerrorSet : Bool
deriving DecidableEq

/-- Embedding of a load-failure event for the hero image. The handler
(source line 389) runs only while attached; it detaches itself
(`e.target.onerror = null`) and replaces `src` with the placeholder. -/
def onImgLoadFailure (st : ImgState) : ImgState :=
  if st.onerrorSet then ⟨placeholderSrc, false⟩ else st

/-- The hero image as first rendered: the profile URL with the error
handler attached (source lines 382-390). -/
def initialHeroImg : ImgState := ⟨profileImage, true⟩

/-- An entry of `experienceTimeline` (source lines 231-262). The renderer
treats `details` as optional (`item.details && ...`), so it is modelled as
nullable. -/
structure ExperienceItem where
  title : String
  date : String
  desc : String
  details : Option String

/-- An entry of `skills` (source lines 264-283). -/
structure Skill where
  name : String
  level : String
  icon : String

/-- An entry of `projects` (source lines 285-301). -/
structure Project where
  title : String
  desc : String
  details : String

/-- An entry of `testimonials` (source lines 309-318). -/
structure Testimonial where
  name : String
  quote : String

/-- An entry of `certifications` (source lines 320-325). -/
structure Certification where
  name : String
  image : String

/-- An entry of `careerNumbers` (source lines 327-332). -/
structure CareerNumber where
  label : String
  value : String

/-- An entry of `readingLearning` (source lines 334-345). -/
structure Article where
  title : String
  desc : String
  link : String

/-- The `experienceTimeline` array (source lines 231-262). -/
def experienceTimeline : List ExperienceItem := [
  ⟨"Technical Assistant, Tata Power DDL",
   "May 2025 – Present",
   "Currently driving digital transformation initiatives by spearheading the implementation of the Customer Facing Module (CFM) project, significantly enhancing customer interaction and service delivery. Additionally, I am optimizing the CEO review system, streamlining reporting and decision-making processes for enhanced operational efficiency and strategic oversight.",
   some "Worked directly under CTO office to digitize customer feedback workflows, implemented comprehensive dashboards in Power BI for real-time performance monitoring, handled monthly cross-functional stakeholder reporting, and coordinated automation efforts with IT teams to improve operational efficiency by 25%. My role involves advanced data analysis for performance monitoring and strategic planning, utilizing tools like Power BI and Excel for comprehensive dashboards."⟩,
  ⟨"Senior Systems Engineer, Infosys",
   "Jan 2023 – Jun 2023",
   "Led a critical offshore SAP BW support team, ensuring the seamless operation and maintenance of complex data warehousing solutions for a global client. My role involved optimizing various reporting tools, which significantly improved data accessibility and enabled more informed business insights for key stakeholders.",
   some "Spearheaded client communication, led a team of 4, optimized 15+ existing SAP queries reducing load time by 30%. I was responsible for incident management, problem resolution, and implementing enhancements to ensure data integrity and system performance. My efforts directly contributed to a 15% improvement in client reporting efficiency."⟩,
  ⟨"Systems Engineer, Infosys",
   "Sep 2021 – Dec 2022",
   "Contributed extensively to SAP BW/HANA support, resolving intricate data issues and ensuring system stability. I was also responsible for developing and maintaining robust Azure Data Factory pipelines, facilitating efficient data ingestion, transformation, and integration across various enterprise systems.",
   some "Delivered full lifecycle BI implementation, from requirements gathering to deployment. Built complex ETL pipelines using Azure Data Factory, handling large volumes of data from diverse sources. Collaborated closely with German clients to gather and refine specifications, ensuring solutions met precise business needs. Played a key role in data migration projects, ensuring data quality and consistency."⟩,
  ⟨"Operations Intern, GA Infra",
   "Apr 2024 – Jun 2024",
   "Achieved a significant 15% reduction in non-revenue water (NRW) by applying advanced predictive modeling techniques to identify and address water loss points. This initiative demonstrated a direct, measurable impact on resource management and operational costs.",
   some "Worked on 5-site performance dashboards, providing real-time insights into operational metrics. Conducted in-depth anomaly detection on consumption patterns using Python/R, identifying critical areas for intervention. Developed and validated predictive models that accurately forecasted potential water losses, leading to proactive maintenance and resource optimization strategies."⟩,
  ⟨"Live Projects (HDFC Life, Leap India)",
   "2023 – 2024",
   "Engaged in real-world consulting projects, conducting in-depth user research to understand customer needs and pain points. I performed comprehensive performance analytics to identify areas for improvement and contributed to strategic workforce planning, aligning talent with organizational goals for enhanced productivity.",
   some "For HDFC Life, I created detailed wireframes and user flows for a new term insurance portal UX, based on extensive user research and A/B testing, aiming to improve customer conversion rates. For Leap India, I performed data mining and statistical analysis on HR datasets to identify talent trends and suggest optimal hiring strategies, contributing to a more agile and efficient workforce planning process. These projects honed my ability to translate data into actionable business recommendations."⟩]

/-- The `skills` array (source lines 264-283). -/
def skills : List Skill := [
  ⟨"SAP BI/BO", "Expert", "📊"⟩,
  ⟨"Excel", "Advanced", "📈"⟩,
  ⟨"Power BI", "Intermediate", "📈"⟩,
  ⟨"R Programming", "Advanced", "💻"⟩,
  ⟨"Minitab", "Beginner", "🔬"⟩,
  ⟨"SPSS", "Intermediate", "🧠"⟩,
  ⟨"Azure Data Factory", "Intermediate", "☁️"⟩,
  ⟨"Tableau", "Beginner", "📈"⟩,
  ⟨"Data Warehousing", "Intermediate", "🗄️"⟩,
  ⟨"Business Intelligence", "Expert", "💡"⟩,
  ⟨"Predictive Analytics", "Advanced", "🔮"⟩,
  ⟨"Data Modeling", "Intermediate", "📐"⟩,
  ⟨"SQL", "Advanced", "🗃️"⟩,
  ⟨"Python (Basic)", "Beginner", "🐍"⟩,
  ⟨"Six Sigma", "Certified", "✅"⟩,
  ⟨"Project Management", "Intermediate", "🗓️"⟩,
  ⟨"Stakeholder Management", "Advanced", "🤝"⟩,
  ⟨"Problem Solving", "Expert", "🧩"⟩]

/-- The `projects` array (source lines 285-301). -/
def projects : List Project := [
  ⟨"Predictive Telecom Analysis",
   "Developed models in R to identify at-risk customers with 80% accuracy.",
   "This project involved a comprehensive analysis of customer call data records, billing information, and service usage patterns. I employed various machine learning techniques including logistic regression, decision trees, and random forests to build a robust churn prediction model. Feature engineering played a crucial role in identifying key indicators of churn. The model's insights led to a targeted marketing campaign that improved customer retention rates by 12% within six months, demonstrating the direct business impact of data-driven strategies."⟩,
  ⟨"Inventory Classification – Hindalco",
   "Implemented ABC/XYZ classification for procurement efficiency.",
   "Working with Hindalco, I analyzed their extensive inventory data to categorize items based on their value (ABC analysis) and demand variability (XYZ analysis). This granular classification allowed for differentiated inventory management strategies, leading to a 15% reduction in excess inventory and a 10% improvement in stock availability for critical components. I developed automated reports and dashboards to monitor inventory performance, providing real-time visibility and supporting agile decision-making for procurement and logistics teams."⟩,
  ⟨"3D Printing Research",
   "Published a paper in Springer on mechanical behavior of polymeric 3D prints.",
   "My research focused on understanding how different printing parameters and material compositions affect the tensile strength, flexural modulus, and impact resistance of 3D printed polymers. I designed and executed a series of experiments, utilizing advanced mechanical testing equipment. The data collected was rigorously analyzed using statistical software (Minitab, SPSS) to identify correlations and optimize printing processes for enhanced material properties. The publication of this research in a prestigious Springer journal validated the scientific rigor and practical relevance of my findings."⟩]

/-- The `testimonials` array (source lines 309-318). -/
def testimonials : List Testimonial := [
  ⟨"Mentor @ Infosys",
   "Aman is an outstanding performer with a strong grasp of analytics and the ability to drive measurable impact. His dedication to optimizing processes and delivering actionable insights is truly commendable. He consistently exceeds expectations and is a valuable asset to any team."⟩,
  ⟨"Manager @ Tata Power DDL",
   "He adds clarity to chaos, communicates efficiently, and takes ownership of every responsibility. Aman's ability to simplify complex data and present it clearly is exceptional, making him a go-to person for critical projects. His proactive approach ensures successful project delivery."⟩]

/-- The `certifications` array (source lines 320-325). -/
def certifications : List Certification := [
  ⟨"Lean Six Sigma Green Belt", "https://placehold.co/80x80/6366F1/ffffff?text=LSS"⟩,
  ⟨"Power BI Data Analyst Associate", "https://placehold.co/80x80/3B82F6/ffffff?text=PBI"⟩,
  ⟨"AWS Cloud Practitioner", "https://placehold.co/80x80/F59E0B/ffffff?text=AWS"⟩,
  ⟨"Salesforce CRM Admin", "https://placehold.co/80x80/EF4444/ffffff?text=SF"⟩]

/-- The `careerNumbers` array (source lines 327-332). -/
def careerNumbers : List CareerNumber := [
  ⟨"Years of Experience", "3+"⟩,
  ⟨"Projects Completed", "20+"⟩,
  ⟨"Technologies Used", "15+"⟩,
  ⟨"Leadership Roles", "5+"⟩]

/-- The `readingLearning` array (source lines 334-345). -/
def readingLearning : List Article := [
  ⟨"Top 10 Business Analytics Books",
   "From 'Freakonomics' to 'Competing on Analytics' — a curated list of books that have profoundly shaped my analytical mindset and strategic thinking.",
   "#"⟩,
  ⟨"Weekly AI & Data Science Digest",
   "A personal, curated digest of the latest trends, research papers, and open-source tools in Artificial Intelligence and Data Science that I explore in my free time.",
   "#"⟩]

/-- The card emitted for one experience entry (source lines 476-494): the
title, date and description are shown, and a Full Details button appears
when `item.details` is truthy. -/
structure ExperienceCard where
  title : String
  date : String
  desc : String
  hasDetailsButton : Bool
deriving DecidableEq

/-- Projection of one experience entry to its card. -/
def experienceCard (item : ExperienceItem) : ExperienceCard :=
  ⟨item.title, item.date, item.desc, jsTruthyStr item.details⟩

/-- Embedding of `ExperienceSection` (source lines 458-497): one card per
entry via `timeline.map`. -/
def renderExperience (timeline : List ExperienceItem) : List ExperienceCard :=
  timeline.map experienceCard

/-- The tile emitted for one skill (source lines 521-532): icon, name and
level. -/
structure SkillCard where
  icon : String
  name : String
  level : String
deriving DecidableEq

/-- Projection of one skill entry to its tile. -/
def skillCard (s : Skill) : SkillCard := ⟨s.icon, s.name, s.level⟩

/-- Embedding of `SkillsSection` (source lines 503-535): one tile per entry
via `skillsList.map`. -/
def renderSkills (skillsList : List Skill) : List SkillCard :=
  skillsList.map skillCard

/-- The card emitted for one project (source lines 560-572): the title and
description are shown, and the Learn More button carries the title and
details for the detail modal. -/
structure ProjectCard where
  title : String
  desc : String
  detailTitle : String
  detailDesc : String
deriving DecidableEq

/-- Projection of one project entry to its card. -/
def projectCard (p : Project) : ProjectCard := ⟨p.title, p.desc, p.title, p.details⟩

/-- Embedding of `ProjectsSection` (source lines 542-575): one card per
entry via `projectsList.map`. -/
def renderProjects (projectsList : List Project) : List ProjectCard :=
  projectsList.map projectCard

/-- The block emitted for one testimonial (source lines 630-640): quote and
author label. -/
structure TestimonialCard where
  quote : String
  name : String
deriving DecidableEq

/-- Projection of one testimonial entry to its block. -/
def testimonialCard (t : Testimonial) : TestimonialCard := ⟨t.quote, t.name⟩

/-- Embedding of `TestimonialsSection` (source lines 612-643): one block per
entry via `testimonialsList.map`. -/
def renderTestimonials (testimonialsList : List Testimonial) : List TestimonialCard :=
  testimonialsList.map testimonialCard

/-- The tile emitted for one certification (source lines 667-680): image,
name, and the View Details button payload derived from the name (source
line 676). -/
structure CertificationCard where
  image : String
  name : String
  detailTitle : String
  detailDesc : String
deriving DecidableEq

/-- Projection of one certification entry to its tile, including the
derived detail-modal text of source line 676. -/
def certificationCard (cert : Certification) : CertificationCard :=
  ⟨cert.image, cert.name, cert.name,
   "Details for " ++ cert.name ++ " certification. This certifies proficiency in relevant skills and knowledge area."⟩

/-- Embedding of `CertificationsSection` (source lines 649-683): one tile
per entry via `certsList.map`. -/
def renderCertifications (certsList : List Certification) : List CertificationCard :=
  certsList.map certificationCard

/-- The tile emitted for one career metric (source lines 772-781): value
then label. -/
structure CareerNumberCard where
  value : String
  label : String
deriving DecidableEq

/-- Projection of one career metric entry to its tile. -/
def careerNumberCard (item : CareerNumber) : CareerNumberCard := ⟨item.value, item.label⟩

/-- Embedding of `CareerNumbersSection` (source lines 754-784): one tile per
entry via `numbersList.map`. -/
def renderCareerNumbers (numbersList : List CareerNumber) : List CareerNumberCard :=
  numbersList.map careerNumberCard

/-- The card emitted for one article (source lines 808-820): title,
description, and the Read More link. -/
structure ArticleCard where
  title : String
  desc : String
  link : String
deriving DecidableEq

/-- Projection of one article entry to its card. -/
def articleCard (blog : Article) : ArticleCard := ⟨blog.title, blog.desc, blog.link⟩

/-- Embedding of `ReadingLearningSection` (source lines 790-823): one card
per entry via `articlesList.map`. -/
def renderArticles (articlesList : List Article) : List ArticleCard :=
  articlesList.map articleCard

lemma classListAdd_idem (cs : List String) (c : String) :
    classListAdd (classListAdd cs c) c = classListAdd cs c := by
  unfold classListAdd
  split
  · rfl
  · simp [List.mem_append]

lemma classListRemove_idem (cs : List String) (c : String) :
    classListRemove (classListRemove cs c) c = classListRemove cs c := by
  unfold classListRemove
  induction cs with
  | nil => rfl
  | cons x xs ih =>
      by_cases hx : x = c
      · simp [hx, ih]
      · have hb : (x != c) = true := by simp [bne_iff_ne, hx]
        simp [List.filter, hb, ih]

lemma onImgLoadFailure_fixed (n : Nat) :
    onImgLoadFailure^[n] ⟨placeholderSrc, false⟩ = ⟨placeholderSrc, false⟩ := by
  induction n with
  | zero => rfl
  | succ k ih => rw [Function.iterate_succ_apply]; exact ih

/-- C3: `getInitialTheme` follows the three-tier fallback chain: a persisted
`'dark'` wins over any ambient signal; with no persisted value the ambient
signal decides; with neither source available (no `window`) the result is
light (`false`). The embedding is a total function, so no error is raised. -/
theorem initial_theme_fallback_chain (amb : Bool) :
    darkModeInit (some ⟨some "dark", amb⟩) = true ∧
    darkModeInit (some ⟨none, amb⟩) = amb ∧
    darkModeInit none = false := by
  refine ⟨rfl, ?_, rfl⟩
  cases amb <;> rfl

/-- Witness for C3 at a concrete ambient signal (dark): the fallback chain
evaluated at each tier. -/
theorem initial_theme_fallback_chain_witness :
    darkModeInit (some ⟨some "dark", true⟩) = true ∧
    darkModeInit (some ⟨none, true⟩) = true ∧
    darkModeInit none = false :=
  initial_theme_fallback_chain true

/-- C4: the toggle updater is the boolean opposite, hence an involution, and
it is a pure function of the previous mode. -/
theorem toggle_involution (t : Bool) :
    toggleDarkMode t = !t ∧ toggleDarkMode (toggleDarkMode t) = t ∧
    toggleDarkMode t ≠ t := by
  cases t <;> simp [toggleDarkMode]

/-- Witness for C4 at the dark theme. -/
theorem toggle_involution_witness :
    toggleDarkMode true = !true ∧ toggleDarkMode (toggleDarkMode true) = true ∧
    toggleDarkMode true ≠ true :=
  toggle_involution true

/-- C5: the theme-applying effect is idempotent — running it twice with the
same theme leaves the document class list and the persisted entry exactly as
one run leaves them — and after it runs, the persisted value records the
applied theme. -/
theorem applyTheme_idempotent (t : Bool) (st : DocumentState) :
    applyTheme t (applyTheme t st) = applyTheme t st ∧
    (applyTheme t st).storedTheme = some (if t then "dark" else "light") := by
  cases t with
  | true =>
      refine ⟨?_, rfl⟩
      simp [applyTheme, classListAdd_idem]
  | false =>
      refine ⟨?_, rfl⟩
      simp [applyTheme, classListRemove_idem]

/-- Witness for C5 at the dark theme on an empty document state. -/
theorem applyTheme_idempotent_witness :
    applyTheme true (applyTheme true ⟨[], none⟩) = applyTheme true ⟨[], none⟩ ∧
    (applyTheme true ⟨[], none⟩).storedTheme = some (if true then "dark" else "light") :=
  applyTheme_idempotent true ⟨[], none⟩

/-- C8: when `window` exists but the persisted-value read throws (storage
access denied), the initializer propagates the error instead of falling back
to the ambient-signal/default chain: the `getItem` call is not guarded by
any try/catch, so page render fails rather than defaulting. -/
theorem storage_error_fails_init :
    darkModeInitF (some ⟨StorageResult.err, true⟩) = Except.error () ∧
    darkModeInitF (some ⟨StorageResult.err, false⟩) = Except.error () :=
  ⟨rfl, rfl⟩

/-- C10 counterexample: a persisted empty string is a present value, yet the
initializer's truthiness test treats it as absent and consults the ambient
signal — with ambient dark the result is dark, where the claim demands
light without consulting the ambient signal. -/
theorem empty_persisted_consults_ambient :
    darkModeInit (some ⟨some "", true⟩) = true := rfl

/-- C10 amended: a present *non-empty* persisted value other than `'dark'`
yields light, and in that case the ambient signal is never consulted (the
result is `false` whatever the ambient value). -/
theorem nonempty_persisted_controls_theme (s : String) (amb : Bool)
    (h1 : s ≠ "") (h2 : s ≠ "dark") :
    darkModeInit (some ⟨some s, amb⟩) = false := by
  have ht : jsTruthyStr (some s) = true := by simp [jsTruthyStr, bne_iff_ne, h1]
  simp [darkModeInit, ht, h2]

/-- Witness for the amended C10: the persisted value `'light'` is non-empty
and not `'dark'`, and the initializer returns light even under a dark
ambient signal. -/
theorem nonempty_persisted_controls_theme_witness :
    ("light" ≠ "") ∧ ("light" ≠ "dark") ∧
    darkModeInit (some ⟨some "light", true⟩) = false :=
  ⟨by decide, by decide,
   nonempty_persisted_controls_theme "light" true (by decide) (by decide)⟩

/-- C1: the scroll lock does NOT mirror "is any modal slot open". After
opening the about slot, then the detail slot, then closing the detail slot,
the about slot is still open but `document.body.style.overflow` is back to
`'unset'`: the detail modal's effect re-ran (its `isOpen` changed) and wrote
`'unset'`, while the about modal's effect did not re-run. The lock held for
the about slot is released prematurely, exactly the two-slot hazard the
design note warns about. -/
theorem scroll_lock_released_while_about_open :
    (run initState [Event.openAbout, Event.openDetail "T" "B", Event.closeDetail]).isAboutModalOpen = true ∧
    (run initState [Event.openAbout, Event.openDetail "T" "B", Event.closeDetail]).bodyOverflow = "unset" :=
  ⟨rfl, rfl⟩

/-- C2 counterexample: after opening and then closing the about slot, the
slot is closed but the shared title/body still hold the about content —
`closeAboutModal` only resets the open flag and never clears
`modalContent`, so residual content remains (the claim asserts it is
cleared for both slots). -/
theorem about_close_keeps_content :
    (run initState [Event.openAbout, Event.closeAbout]).isAboutModalOpen = false ∧
    (run initState [Event.openAbout, Event.closeAbout]).modalContent.title = aboutFullTitle ∧
    aboutFullTitle ≠ "" :=
  ⟨rfl, rfl, by decide⟩

/-- C2 amended: the detail slot satisfies the full contract — after
`openDetailModal t b` its state is open with content `⟨t, b⟩`, and after a
subsequent `closeDetailModal` it is closed with the content cleared to
empty strings. The about slot opens with the fixed about content, and its
close only marks the slot closed: the shared title/body are left exactly as
the open set them, not cleared. -/
theorem modal_open_close_contract (s : AppState) (t b : String) :
    (openDetailModal t b s).isDetailModalOpen = true ∧
    (openDetailModal t b s).modalContent = ⟨t, b⟩ ∧
    (closeDetailModal (openDetailModal t b s)).isDetailModalOpen = false ∧
    (closeDetailModal (openDetailModal t b s)).modalContent = ⟨"", ""⟩ ∧
    (openAboutModal s).isAboutModalOpen = true ∧
    (openAboutModal s).modalContent = ⟨aboutFullTitle, aboutFullDesc⟩ ∧
    (closeAboutModal (openAboutModal s)).isAboutModalOpen = false ∧
    (closeAboutModal (openAboutModal s)).modalContent = ⟨aboutFullTitle, aboutFullDesc⟩ :=
  ⟨rfl, rfl, rfl, rfl, rfl, rfl, rfl, rfl⟩

/-- Witness for the amended C2 at the initial state with concrete content. -/
theorem modal_open_close_contract_witness :
    (openDetailModal "T" "B" initState).modalContent = ⟨"T", "B"⟩ ∧
    (closeDetailModal (openDetailModal "T" "B" initState)).modalContent = ⟨"", ""⟩ :=
  ⟨(modal_open_close_contract initState "T" "B").2.1,
   (modal_open_close_contract initState "T" "B").2.2.2.1⟩

/-- C6: on the first load failure the hero image's `src` becomes the fixed
placeholder URL and the handler detaches itself; any number of further load
failures leaves the state unchanged (the handler never runs again), and the
placeholder is a different URL than the original, so the original is never
retried. -/
theorem img_error_sets_placeholder_once (n : Nat) :
    onImgLoadFailure initialHeroImg = ⟨placeholderSrc, false⟩ ∧
    onImgLoadFailure^[n + 1] initialHeroImg = ⟨placeholderSrc, false⟩ ∧
    placeholderSrc ≠ profileImage := by
  refine ⟨rfl, ?_, by decide⟩
  rw [Function.iterate_succ_apply]
  exact onImgLoadFailure_fixed n

/-- Witness for C6 at one extra load failure beyond the first. -/
theorem img_error_sets_placeholder_once_witness :
    onImgLoadFailure initialHeroImg = ⟨placeholderSrc, false⟩ ∧
    onImgLoadFailure^[0 + 1] initialHeroImg = ⟨placeholderSrc, false⟩ ∧
    placeholderSrc ≠ profileImage :=
  img_error_sets_placeholder_once 0

/-- C7 counterexample: both modal slots open simultaneously is reachable —
opening the about slot and then the detail slot leaves both open, because
neither open handler closes the other slot. -/
theorem both_modals_open_reachable :
    (run initState [Event.openAbout, Event.openDetail "T" "B"]).isAboutModalOpen = true ∧
    (run initState [Event.openAbout, Event.openDetail "T" "B"]).isDetailModalOpen = true :=
  ⟨rfl, rfl⟩

/-- C7 amended: the handlers themselves do not enforce mutual exclusion;
at-most-one-open is preserved only by event sequences that never open one
slot while the other is open. Formally: a step from a state with at most
one slot open, by an event that does not open a slot while the other is
open, again yields at most one slot open. -/
theorem at_most_one_open_preserved (s : AppState) (e : Event)
    (h1 : ¬(s.isAboutModalOpen = true ∧ s.isDetailModalOpen = true))
    (h2 : eventOk s e = true) :
    ¬((step s e).isAboutModalOpen = true ∧ (step s e).isDetailModalOpen = true) := by
  cases e <;>
    simp_all [step, eventOk, openAboutModal, closeAboutModal, openDetailModal,
      closeDetailModal, commitModal]

/-- Witness for the amended C7: from the initial state (at most one slot
open) the event `openAbout` respects the side condition, and the resulting
state does not have both slots open. -/
theorem at_most_one_open_preserved_witness :
    ¬((step initState Event.openAbout).isAboutModalOpen = true ∧
      (step initState Event.openAbout).isDetailModalOpen = true) :=
  at_most_one_open_preserved initState Event.openAbout (by decide) (by decide)

/-- C9: every content renderer emits exactly one card per source entry, and
the card at each index is the projection of the source entry at the same
index — rendering is a per-entry map, so order is exactly the source array
order with no sorting, filtering, pagination or list-level computation.
The final conjunct grounds this on the concrete source arrays: the emitted
titles/names equal the source titles/names in source order. -/
theorem renderers_preserve_source_order (i : Nat)
    (tl : List ExperienceItem) (sk : List Skill) (pr : List Project)
    (ts : List Testimonial) (ce : List Certification) (cn : List CareerNumber)
    (ar : List Article) :
    ((renderExperience tl).length = tl.length ∧
      (renderExperience tl)[i]? = tl[i]?.map experienceCard) ∧
    ((renderSkills sk).length = sk.length ∧
      (renderSkills sk)[i]? = sk[i]?.map skillCard) ∧
    ((renderProjects pr).length = pr.length ∧
      (renderProjects pr)[i]? = pr[i]?.map projectCard) ∧
    ((renderTestimonials ts).length = ts.length ∧
      (renderTestimonials ts)[i]? = ts[i]?.map testimonialCard) ∧
    ((renderCertifications ce).length = ce.length ∧
      (renderCertifications ce)[i]? = ce[i]?.map certificationCard) ∧
    ((renderCareerNumbers cn).length = cn.length ∧
      (renderCareerNumbers cn)[i]? = cn[i]?.map careerNumberCard) ∧
    ((renderArticles ar).length = ar.length ∧
      (renderArticles ar)[i]? = ar[i]?.map articleCard) ∧
    ((renderExperience experienceTimeline).map ExperienceCard.title =
      experienceTimeline.map ExperienceItem.title ∧
     (renderSkills skills).map SkillCard.name = skills.map Skill.name ∧
     (renderProjects projects).map ProjectCard.title = projects.map Project.title ∧
     (renderTestimonials testimonials).map TestimonialCard.name =
      testimonials.map Testimonial.name ∧
     (renderCertifications certifications).map CertificationCard.name =
      certifications.map Certification.name ∧
     (renderCareerNumbers careerNumbers).map CareerNumberCard.label =
      careerNumbers.map CareerNumber.label ∧
     (renderArticles readingLearning).map ArticleCard.title =
      readingLearning.map Article.title) := by
  refine ⟨⟨?_, ?_⟩, ⟨?_, ?_⟩, ⟨?_, ?_⟩, ⟨?_, ?_⟩, ⟨?_, ?_⟩, ⟨?_, ?_⟩, ⟨?_, ?_⟩,
    rfl, rfl, rfl, rfl, rfl, rfl, rfl⟩ <;>
    simp [renderExperience, renderSkills, renderProjects, renderTestimonials,
      renderCertifications, renderCareerNumbers, renderArticles]

/-- Witness for C9: length preservation and index-0 projection instantiated
on the concrete source arrays. -/
theorem renderers_preserve_source_order_witness :
    (renderExperience experienceTimeline).length = experienceTimeline.length ∧
    (renderSkills skills)[0]? = skills[0]?.map skillCard :=
  ⟨(renderers_preserve_source_order 0 experienceTimeline skills projects
      testimonials certifications careerNumbers readingLearning).1.1,
   (renderers_preserve_source_order 0 experienceTimeline skills projects
      testimonials certifications careerNumbers readingLearning).2.1.2⟩

end Site
